import Mathlib

set_option autoImplicit false

/-! Shallow embedding of the playwright-skill browser daemon and client
    (skills/playwright-skill/browser-daemon.js and browser-client.js).

    The daemon owns a single browser session, polls a file-based command
    channel, dispatches commands against the session, and lazily restarts
    the session when it is found unusable.  The browser-automation engine
    (Playwright) is modelled at its interface boundary by an `Engine`
    record that says, for each operation, whether it succeeds or throws
    and with which message.  Exceptions are modelled as `Except.error msg`.
    The filesystem artifacts (.browser-command, .browser-result,
    .browser-ready) are fields of the daemon state.  Two extra `Nat`
    fields (`launches`, `execs`) are ghost instrumentation counters that
    record how many fresh engine launches and how many executions of
    `executeCommandInner` have happened; no source behaviour reads them. -/

/-- A console log entry collected by the page listeners
    (browser-daemon.js, setupPageListeners). -/
structure ConsoleLogEntry where
  kind : String
  text : String
  deriving Repr, DecidableEq

/-- A decoded command: the `action` tag plus its payload
    (browser-daemon.js, executeCommandInner's switch). `unknown` carries
    an unrecognized action string (the switch's default case). -/
inductive Cmd where
  | navigate (url : String)
  | exec (code : String)
  | console
  | consoleClear
  | status
  | resize (width height : Nat)
  | unknown (action : String)
  deriving Repr, DecidableEq

/-- A response value written to the result file: either a success object
    with action-specific fields, or an error object with a message. -/
inductive Response where
  | navigateOk (url title : String)
  | execOk (result : String)
  | consoleOk (logs : List ConsoleLogEntry)
  | clearOk
  | statusOk (url title : String) (logCount : Nat)
  | resizeOk (width height : Nat)
  | error (msg : String)
  deriving Repr, DecidableEq

/-- Truthiness of `result.success` on the client side. -/
def Response.isSuccess : Response → Bool
  | .error _ => false
  | _ => true

/-- The raw content of the command file: either a JSON-decodable request,
    or a malformed payload whose parse attempt throws the given message
    (browser-daemon.js line 167, JSON.parse). -/
inductive RawRequest where
  | wellFormed (c : Cmd)
  | malformed (parseErr : String)
  deriving Repr, DecidableEq

/-- The browser-automation engine at its interface boundary (spec section 6):
    `launchResult = some m` means launching a fresh session throws `m`,
    `gotoResult url = some m` means `page.goto url` throws `m`,
    `titleOf url` is the title of the page at `url`,
    `evalResult code` is what `page.evaluate code` returns or throws,
    `screenW`/`screenH` are the screen dimensions the startup queries. -/
structure Engine where
  launchResult : Option String
  gotoResult : String → Option String
  titleOf : String → String
  evalResult : String → Except String String
  screenW : Nat
  screenH : Nat

/-- The daemon process state: session handle condition (transport
    connectivity and page responsiveness), current page URL, viewport,
    the console log buffer, the `isRestarting` mark, `lastURL`, the three
    channel artifact files, and the two ghost counters. -/
structure DaemonState where
  browserConnected : Bool
  pageResponsive : Bool
  pageURL : String
  viewport : Option (Nat × Nat)
  consoleLogs : List ConsoleLogEntry
  isRestarting : Bool
  lastURL : String
  commandFile : Option RawRequest
  resultFile : Option Response
  readyFile : Bool
  launches : Nat
  execs : Nat
  deriving Repr, DecidableEq

/-- Does the first list start with the second one? -/
def leadsWith : List Char → List Char → Bool
  | _, [] => true
  | [], _ :: _ => false
  | a :: as, b :: bs => (a = b) && leadsWith as bs

/-- Does the second list contain the first one as a contiguous run? -/
def hasSub (needle : List Char) : List Char → Bool
  | [] => needle.isEmpty
  | a :: rest => leadsWith (a :: rest) needle || hasSub needle rest

/-- JS `hay.includes(needle)` on strings. -/
def containsSub (hay needle : String) : Bool :=
  hasSub needle.toList hay.toList

/-- Error classification of browser-daemon.js line 183:
    `err.message.includes('closed') || err.message.includes('disconnected')`. -/
def sessionLossMsg (m : String) : Bool :=
  containsSub m "closed" || containsSub m "disconnected"

/-- The message Playwright page operations throw once the page, context or
    browser has been closed. -/
def closedMsg : String := "Target page, context or browser has been closed"

/-- `writeResult` (browser-daemon.js line 257): overwrite the result file. -/
def writeResult (s : DaemonState) (r : Response) : DaemonState :=
  { s with resultFile := some r }

/-- `startBrowser` (browser-daemon.js lines 22-60): launch the engine,
    open a page on about:blank, query the screen dimensions and size the
    viewport to them, bind the page listeners.  A launch failure throws
    and leaves the state unchanged. -/
def startBrowser (e : Engine) (s : DaemonState) : DaemonState × Except String Unit :=
  match e.launchResult with
  | some m => (s, Except.error m)
  | none =>
    ({ s with browserConnected := true, pageResponsive := true,
              pageURL := "about:blank",
              viewport := some (e.screenW, e.screenH),
              launches := s.launches + 1 }, Except.ok ())

/-- The usability probe of `ensureBrowserReady` (browser-daemon.js lines
    63-83): restart is needed when the transport is down or when the
    page-title round trip throws. -/
def needsRestart (s : DaemonState) : Bool :=
  !(s.browserConnected && s.pageResponsive)

/-- `ensureBrowserReady` (browser-daemon.js lines 62-108): if the probe
    fails, set the `isRestarting` mark, best-effort close the old browser,
    start a fresh one (rethrowing a launch failure after clearing the mark
    in the `finally`), restore `lastURL` when it is set and not
    about:blank (a restore failure is caught and only logged), and clear
    the mark. -/
def ensureBrowserReady (e : Engine) (s : DaemonState) : DaemonState × Except String Unit :=
  if needsRestart s then
    let s₁ := { s with isRestarting := true }
    let s₂ := if s₁.browserConnected then
                { s₁ with browserConnected := false, pageResponsive := false }
              else s₁
    match startBrowser e s₂ with
    | (s₃, Except.error m) => ({ s₃ with isRestarting := false }, Except.error m)
    | (s₃, Except.ok _) =>
      let s₄ :=
        if s₃.lastURL ≠ "" ∧ s₃.lastURL ≠ "about:blank" then
          match e.gotoResult s₃.lastURL with
          | some _ => s₃
          | none => { s₃ with pageURL := s₃.lastURL }
        else s₃
      ({ s₄ with isRestarting := false }, Except.ok ())
  else (s, Except.ok ())

/-- `executeCommandInner` (browser-daemon.js lines 197-255): the switch
    over actions.  Page operations (`goto`, `evaluate`, `title`,
    `setViewportSize`) throw `closedMsg` when the session is unusable;
    `navigate` records `lastURL` only after `page.goto` succeeded.  The
    ghost counter `execs` is bumped on entry. -/
def executeCommandInner (e : Engine) (s₀ : DaemonState) (c : Cmd) :
    DaemonState × Except String Unit :=
  let s := { s₀ with execs := s₀.execs + 1 }
  match c with
  | .navigate url =>
    if s.browserConnected && s.pageResponsive then
      match e.gotoResult url with
      | some m => (s, Except.error m)
      | none =>
        let s' := { s with pageURL := url, lastURL := url }
        (writeResult s' (.navigateOk url (e.titleOf url)), Except.ok ())
    else (s, Except.error closedMsg)
  | .exec code =>
    if s.browserConnected && s.pageResponsive then
      match e.evalResult code with
      | Except.error m => (s, Except.error m)
      | Except.ok v => (writeResult s (.execOk v), Except.ok ())
    else (s, Except.error closedMsg)
  | .console => (writeResult s (.consoleOk s.consoleLogs), Except.ok ())
  | .consoleClear =>
    (writeResult { s with consoleLogs := [] } .clearOk, Except.ok ())
  | .status =>
    if s.browserConnected && s.pageResponsive then
      (writeResult s (.statusOk s.pageURL (e.titleOf s.pageURL) s.consoleLogs.length),
       Except.ok ())
    else (s, Except.error closedMsg)
  | .resize w h =>
    if s.browserConnected && s.pageResponsive then
      (writeResult { s with viewport := some (w, h) } (.resizeOk w h), Except.ok ())
    else (s, Except.error closedMsg)
  | .unknown a =>
    (writeResult s (.error ("Unknown command: " ++ a)), Except.ok ())

/-- `executeCommand` (browser-daemon.js lines 178-195): run the command;
    if it throws a message containing "closed" or "disconnected", run
    `ensureBrowserReady` and retry once, writing an error response if the
    restart or the retry throws; any other thrown message is written as an
    error response directly. -/
def executeCommand (e : Engine) (s : DaemonState) (c : Cmd) : DaemonState :=
  match executeCommandInner e s c with
  | (s₁, Except.ok _) => s₁
  | (s₁, Except.error m) =>
    if sessionLossMsg m then
      match ensureBrowserReady e s₁ with
      | (s₂, Except.error m₂) => writeResult s₂ (.error m₂)
      | (s₂, Except.ok _) =>
        match executeCommandInner e s₂ c with
        | (s₃, Except.ok _) => s₃
        | (s₃, Except.error m₃) => writeResult s₃ (.error m₃)
    else writeResult s₁ (.error m)

/-- One tick of `watchForCommands` (browser-daemon.js lines 160-176): if
    the command file exists, read it and delete it before parsing; a parse
    failure is caught and written as an error response; a decoded command
    goes to `executeCommand`. -/
def pollTick (e : Engine) (s : DaemonState) : DaemonState :=
  match s.commandFile with
  | none => s
  | some raw =>
    let s₁ := { s with commandFile := none }
    match raw with
    | .malformed m => writeResult s₁ (.error m)
    | .wellFormed c => executeCommand e s₁ c

/-- `cleanup` (browser-daemon.js lines 261-267): delete the three channel
    artifact files. -/
def cleanup (s : DaemonState) : DaemonState :=
  { s with commandFile := none, resultFile := none, readyFile := false }

/-- `startDaemon` (browser-daemon.js lines 137-158): start the browser,
    then create the ready marker. -/
def startDaemon (e : Engine) (s : DaemonState) : DaemonState × Except String Unit :=
  match startBrowser e s with
  | (s₁, Except.error m) => (s₁, Except.error m)
  | (s₁, Except.ok _) => ({ s₁ with readyFile := true }, Except.ok ())

/-- The daemon state before the top-level script runs. -/
def initialState : DaemonState :=
  { browserConnected := false, pageResponsive := false,
    pageURL := "about:blank", viewport := none, consoleLogs := [],
    isRestarting := false, lastURL := "about:blank",
    commandFile := none, resultFile := none, readyFile := false,
    launches := 0, execs := 0 }

/-- Outcome of the daemon's top-level bootstrap. -/
inductive BootResult where
  | running (s : DaemonState)
  | exited (s : DaemonState) (code : Nat)
  deriving Repr, DecidableEq

/-- The top level of browser-daemon.js (lines 269-277): clean up stale
    files, then `startDaemon().catch(err => ... cleanup(); process.exit(1))`. -/
def daemonBoot (e : Engine) : BootResult :=
  let s := cleanup initialState
  match startDaemon e s with
  | (s₁, Except.error _) => .exited (cleanup s₁) 1
  | (s₁, Except.ok _) => .running s₁

/-- An externally visible event hitting the daemon: a dispatched command,
    a loss of the session (the user closes the browser window), or a
    console event appended by the page listeners. -/
inductive Event where
  | cmd (c : Cmd)
  | sessionLoss
  | consoleEvent (entry : ConsoleLogEntry)
  deriving Repr, DecidableEq

/-- One step of the daemon under an event. -/
def stepEvent (e : Engine) (s : DaemonState) : Event → DaemonState
  | .cmd c => executeCommand e s c
  | .sessionLoss => { s with browserConnected := false, pageResponsive := false }
  | .consoleEvent l => { s with consoleLogs := s.consoleLogs ++ [l] }

/-! Client side (browser-client.js). -/

/-- The channel as the client sees it: the command file and the result
    file. -/
structure Chan where
  commandFile : Option Cmd
  resultFile : Option Response
  deriving Repr, DecidableEq

/-- The send phase of `sendCommand` (browser-client.js lines 22-29):
    delete any old result file, then write the command file. -/
def sendRequestPhase (c : Cmd) (ch : Chan) : Chan :=
  let ch₁ := { ch with resultFile := none }
  { ch₁ with commandFile := some c }

/-- The wait phase of `sendCommand` (browser-client.js lines 31-47): the
    client polls the result file and collects the first response it
    observes; `writes` lists the responses the daemon writes after the
    send, in order. -/
def collectResponse (ch : Chan) (writes : List Response) : Option Response :=
  match ch.resultFile with
  | some r => some r
  | none => writes.head?

/-- What the client's 30-second response wait produced. -/
inductive CollectOutcome where
  | got (r : Response)
  | timeout
  deriving Repr, DecidableEq

/-- The client's environment for one invocation: whether the ready marker
    exists, and what the response wait yields. -/
structure ClientEnv where
  readyExists : Bool
  collect : CollectOutcome
  deriving Repr, DecidableEq

/-- JS `parseInt` restricted to what the client needs: the leading digit
    run, `none` when there is none (NaN). -/
def parseIntJS (s : String) : Option Nat :=
  let ds := s.toList.takeWhile Char.isDigit
  if ds.isEmpty then none
  else some (ds.foldl (fun n c => n * 10 + (c.toNat - 48)) 0)

/-- Exit code contributed by awaiting `sendCommand`: a timeout rejects and
    is caught by `main`'s catch which exits 1; a collected response (of
    either kind) is printed and `main` falls through to a normal exit 0. -/
def afterCollect (env : ClientEnv) : Nat :=
  match env.collect with
  | .timeout => 1
  | .got _ => 0

/-- `main` of browser-client.js (lines 50-182), as the process exit code:
    exit 1 when the ready marker is absent, on a usage error, on an
    unknown action, or on a response timeout; otherwise the switch prints
    the collected response (success or error alike) and the process ends
    normally with exit code 0. -/
def clientMain (env : ClientEnv) (args : List String) : Nat :=
  if env.readyExists then
    match args with
    | "navigate" :: rest =>
      match rest.head? with
      | none => 1
      | some url => if url = "" then 1 else afterCollect env
    | "exec" :: rest =>
      match rest.head? with
      | none => 1
      | some code => if code = "" then 1 else afterCollect env
    | "console" :: _ => afterCollect env
    | "console-clear" :: _ => afterCollect env
    | "status" :: _ => afterCollect env
    | "resize" :: rest =>
      match rest.head?, rest.tail.head? with
      | some a, some b =>
        match parseIntJS a, parseIntJS b with
        | some w, some h => if w = 0 || h = 0 then 1 else afterCollect env
        | _, _ => 1
      | _, _ => 1
    | _ => 1
  else 1

/-- Spec-side summary of the client's argument validation: which argument
    lists pass `main`'s per-action checks and reach `sendCommand`. -/
def clientArgsAccepted (args : List String) : Bool :=
  match args with
  | "navigate" :: rest =>
    match rest.head? with
    | none => false
    | some url => url ≠ ""
  | "exec" :: rest =>
    match rest.head? with
    | none => false
    | some code => code ≠ ""
  | "console" :: _ => true
  | "console-clear" :: _ => true
  | "status" :: _ => true
  | "resize" :: rest =>
    match rest.head?, rest.tail.head? with
    | some a, some b =>
      match parseIntJS a, parseIntJS b with
      | some w, some h => !(w = 0 || h = 0)
      | _, _ => false
    | _, _ => false
  | _ => false

/-! Concrete engines and states used by witnesses and counterexamples. -/

/-- An engine on which every operation succeeds. -/
def eGood : Engine :=
  { launchResult := none, gotoResult := fun _ => none,
    titleOf := fun _ => "Example Domain",
    evalResult := fun _ => Except.ok "42",
    screenW := 1920, screenH := 1080 }

/-- An engine whose launch always fails. -/
def eBad : Engine :=
  { launchResult := some "Failed to launch browser",
    gotoResult := fun _ => none, titleOf := fun _ => "",
    evalResult := fun _ => Except.ok "",
    screenW := 1920, screenH := 1080 }

/-- An engine on which every navigation fails with a resolution error. -/
def eNavFail : Engine :=
  { launchResult := none,
    gotoResult := fun _ => some "net::ERR_NAME_NOT_RESOLVED",
    titleOf := fun _ => "", evalResult := fun _ => Except.ok "",
    screenW := 1920, screenH := 1080 }

/-- A daemon state with a usable session and the ready marker present. -/
def liveState : DaemonState :=
  { browserConnected := true, pageResponsive := true,
    pageURL := "about:blank", viewport := some (1920, 1080),
    consoleLogs := [], isRestarting := false, lastURL := "about:blank",
    commandFile := none, resultFile := none, readyFile := true,
    launches := 1, execs := 0 }

/-- The same state after the session has been lost. -/
def deadState : DaemonState :=
  { liveState with browserConnected := false, pageResponsive := false }

/-- A dead-session state in which a restart is already marked in flight. -/
def cxState : DaemonState :=
  { deadState with isRestarting := true }

/-- A live state with a malformed request sitting in the command file. -/
def pendingMalformed : DaemonState :=
  { liveState with
      commandFile := some (RawRequest.malformed "Unexpected token x in JSON") }

/-- An engine that launches fine but whose navigations all time out. -/
def eRestoreFail : Engine :=
  { launchResult := none,
    gotoResult := fun _ => some "Timeout 30000ms exceeded",
    titleOf := fun _ => "", evalResult := fun _ => Except.ok "",
    screenW := 1920, screenH := 1080 }

/-- A dead-session state that had successfully navigated somewhere. -/
def deadNav : DaemonState :=
  { deadState with lastURL := "http://example.test/", pageURL := "http://example.test/" }

/-! Frame lemmas: which state fields each operation leaves alone. -/

theorem writeResult_commandFile (s : DaemonState) (r : Response) :
    (writeResult s r).commandFile = s.commandFile := rfl

theorem executeCommandInner_commandFile (e : Engine) (s : DaemonState) (c : Cmd) :
    ((executeCommandInner e s c).1).commandFile = s.commandFile := by
  cases c <;> simp only [executeCommandInner] <;> (repeat' split) <;> rfl

theorem executeCommandInner_readyFile (e : Engine) (s : DaemonState) (c : Cmd) :
    ((executeCommandInner e s c).1).readyFile = s.readyFile := by
  cases c <;> simp only [executeCommandInner] <;> (repeat' split) <;> rfl

theorem executeCommandInner_launches (e : Engine) (s : DaemonState) (c : Cmd) :
    ((executeCommandInner e s c).1).launches = s.launches := by
  cases c <;> simp only [executeCommandInner] <;> (repeat' split) <;> rfl

theorem executeCommandInner_execs (e : Engine) (s : DaemonState) (c : Cmd) :
    ((executeCommandInner e s c).1).execs = s.execs + 1 := by
  cases c <;> simp only [executeCommandInner] <;> (repeat' split) <;> rfl

theorem ensureBrowserReady_commandFile (e : Engine) (s : DaemonState) :
    ((ensureBrowserReady e s).1).commandFile = s.commandFile := by
  simp only [ensureBrowserReady, startBrowser]
  cases hl : e.launchResult <;> simp only [hl] <;> (repeat' split) <;> rfl

theorem ensureBrowserReady_readyFile (e : Engine) (s : DaemonState) :
    ((ensureBrowserReady e s).1).readyFile = s.readyFile := by
  simp only [ensureBrowserReady, startBrowser]
  cases hl : e.launchResult <;> simp only [hl] <;> (repeat' split) <;> rfl

theorem ensureBrowserReady_execs (e : Engine) (s : DaemonState) :
    ((ensureBrowserReady e s).1).execs = s.execs := by
  simp only [ensureBrowserReady, startBrowser]
  cases hl : e.launchResult <;> simp only [hl] <;> (repeat' split) <;> rfl

theorem ensureBrowserReady_lastURL (e : Engine) (s : DaemonState) :
    ((ensureBrowserReady e s).1).lastURL = s.lastURL := by
  simp only [ensureBrowserReady, startBrowser]
  cases hl : e.launchResult <;> simp only [hl] <;> (repeat' split) <;> rfl

theorem ensureBrowserReady_consoleLogs (e : Engine) (s : DaemonState) :
    ((ensureBrowserReady e s).1).consoleLogs = s.consoleLogs := by
  simp only [ensureBrowserReady, startBrowser]
  cases hl : e.launchResult <;> simp only [hl] <;> (repeat' split) <;> rfl

theorem ensureBrowserReady_launches_le (e : Engine) (s : DaemonState) :
    ((ensureBrowserReady e s).1).launches ≤ s.launches + 1 := by
  simp only [ensureBrowserReady, startBrowser]
  cases hl : e.launchResult <;> simp only [hl] <;> (repeat' split) <;> simp

theorem executeCommand_commandFile (e : Engine) (s : DaemonState) (c : Cmd) :
    (executeCommand e s c).commandFile = s.commandFile := by
  unfold executeCommand
  rcases h1 : executeCommandInner e s c with ⟨s₁, r₁⟩
  have f1 : s₁.commandFile = s.commandFile := by
    have h := executeCommandInner_commandFile e s c
    rw [h1] at h; exact h
  cases r₁ with
  | ok u => exact f1
  | error m =>
    by_cases hm : sessionLossMsg m
    · simp only [hm, if_true]
      rcases h2 : ensureBrowserReady e s₁ with ⟨s₂, r₂⟩
      have f2 : s₂.commandFile = s₁.commandFile := by
        have h := ensureBrowserReady_commandFile e s₁
        rw [h2] at h; exact h
      cases r₂ with
      | error m₂ => exact f2.trans f1
      | ok u =>
        dsimp only
        rcases h3 : executeCommandInner e s₂ c with ⟨s₃, r₃⟩
        have f3 : s₃.commandFile = s₂.commandFile := by
          have h := executeCommandInner_commandFile e s₂ c
          rw [h3] at h; exact h
        cases r₃ <;> exact f3.trans (f2.trans f1)
    · simp only [hm, if_false]
      exact f1

theorem executeCommand_readyFile (e : Engine) (s : DaemonState) (c : Cmd) :
    (executeCommand e s c).readyFile = s.readyFile := by
  unfold executeCommand
  rcases h1 : executeCommandInner e s c with ⟨s₁, r₁⟩
  have f1 : s₁.readyFile = s.readyFile := by
    have h := executeCommandInner_readyFile e s c
    rw [h1] at h; exact h
  cases r₁ with
  | ok u => exact f1
  | error m =>
    by_cases hm : sessionLossMsg m
    · simp only [hm, if_true]
      rcases h2 : ensureBrowserReady e s₁ with ⟨s₂, r₂⟩
      have f2 : s₂.readyFile = s₁.readyFile := by
        have h := ensureBrowserReady_readyFile e s₁
        rw [h2] at h; exact h
      cases r₂ with
      | error m₂ => exact f2.trans f1
      | ok u =>
        dsimp only
        rcases h3 : executeCommandInner e s₂ c with ⟨s₃, r₃⟩
        have f3 : s₃.readyFile = s₂.readyFile := by
          have h := executeCommandInner_readyFile e s₂ c
          rw [h3] at h; exact h
        cases r₃ <;> exact f3.trans (f2.trans f1)
    · simp only [hm, if_false]
      exact f1

theorem executeCommandInner_lastURL_cases (e : Engine) (s : DaemonState) (c : Cmd) :
    ((executeCommandInner e s c).1).lastURL = s.lastURL ∨
    ∃ url, c = Cmd.navigate url ∧ ((executeCommandInner e s c).1).lastURL = url ∧
      ((executeCommandInner e s c).1).resultFile =
        some (Response.navigateOk url (e.titleOf url)) ∧
      (executeCommandInner e s c).2 = Except.ok () := by
  cases c with
  | navigate url =>
    simp only [executeCommandInner]
    split
    · split
      · exact Or.inl rfl
      · exact Or.inr ⟨url, rfl, rfl, rfl, rfl⟩
    · exact Or.inl rfl
  | exec code =>
    simp only [executeCommandInner]; (repeat' split) <;> exact Or.inl rfl
  | console => exact Or.inl rfl
  | consoleClear => exact Or.inl rfl
  | status =>
    simp only [executeCommandInner]; (repeat' split) <;> exact Or.inl rfl
  | resize w h =>
    simp only [executeCommandInner]; (repeat' split) <;> exact Or.inl rfl
  | unknown a => exact Or.inl rfl

theorem executeCommandInner_unknown_ok (e : Engine) (s : DaemonState) (a : String) :
    (executeCommandInner e s (Cmd.unknown a)).2 = Except.ok () := rfl

theorem executeCommandInner_ok_success (e : Engine) (s : DaemonState) (c : Cmd)
    (hc : ∀ a, c ≠ Cmd.unknown a)
    (h : (executeCommandInner e s c).2 = Except.ok ()) :
    ∃ r, ((executeCommandInner e s c).1).resultFile = some r ∧ r.isSuccess = true := by
  cases c with
  | navigate url =>
    revert h
    simp only [executeCommandInner]
    (repeat' split) <;> intro h <;> simp_all [writeResult, Response.isSuccess]
  | exec code =>
    revert h
    simp only [executeCommandInner]
    (repeat' split) <;> intro h <;> simp_all [writeResult, Response.isSuccess]
  | console =>
    exact ⟨_, rfl, rfl⟩
  | consoleClear =>
    exact ⟨_, rfl, rfl⟩
  | status =>
    revert h
    simp only [executeCommandInner]
    (repeat' split) <;> intro h <;> simp_all [writeResult, Response.isSuccess]
  | resize w hh =>
    revert h
    simp only [executeCommandInner]
    (repeat' split) <;> intro h <;> simp_all [writeResult, Response.isSuccess]
  | unknown a => exact absurd rfl (hc a)

theorem executeCommand_lastURL_cases (e : Engine) (s : DaemonState) (c : Cmd) :
    (executeCommand e s c).lastURL = s.lastURL ∨
    ∃ url, c = Cmd.navigate url ∧ (executeCommand e s c).lastURL = url ∧
      (executeCommand e s c).resultFile =
        some (Response.navigateOk url (e.titleOf url)) := by
  unfold executeCommand
  rcases h1 : executeCommandInner e s c with ⟨s₁, r₁⟩
  have k1 := executeCommandInner_lastURL_cases e s c
  rw [h1] at k1
  cases r₁ with
  | ok u =>
    rcases k1 with h | ⟨url, hc, hu, hr, _⟩
    · exact Or.inl h
    · exact Or.inr ⟨url, hc, hu, hr⟩
  | error m =>
    have f1 : s₁.lastURL = s.lastURL := by
      rcases k1 with h | ⟨url, hc, hu, hr, hok⟩
      · exact h
      · simp at hok
    by_cases hm : sessionLossMsg m
    · simp only [hm, if_true]
      rcases h2 : ensureBrowserReady e s₁ with ⟨s₂, r₂⟩
      have f2 : s₂.lastURL = s₁.lastURL := by
        have h := ensureBrowserReady_lastURL e s₁
        rw [h2] at h; exact h
      cases r₂ with
      | error m₂ => exact Or.inl (f2.trans f1)
      | ok u =>
        dsimp only
        rcases h3 : executeCommandInner e s₂ c with ⟨s₃, r₃⟩
        have k3 := executeCommandInner_lastURL_cases e s₂ c
        rw [h3] at k3
        cases r₃ with
        | ok u =>
          rcases k3 with h | ⟨url, hc, hu, hr, _⟩
          · exact Or.inl (h.trans (f2.trans f1))
          · exact Or.inr ⟨url, hc, hu, hr⟩
        | error m₃ =>
          rcases k3 with h | ⟨url, hc, hu, hr, hok⟩
          · exact Or.inl (h.trans (f2.trans f1))
          · simp at hok
    · simp only [hm, if_false]
      exact Or.inl f1

theorem pollTick_none (e : Engine) (s : DaemonState) (h : s.commandFile = none) :
    pollTick e s = s := by
  unfold pollTick
  rw [h]

/-! The claims. -/

/-- C1: for a command whose execution throws, a message containing "closed"
    or "disconnected" leads to at most one restart and exactly one retry
    (a second execution of the same command once the Health Monitor
    returned successfully), and a successful retry leaves the retry's own
    success response in place, never the thrown error; any other message
    is written verbatim as an error response with no restart and no
    retry. -/
theorem thm_C1 : ∀ (e : Engine) (s : DaemonState) (c : Cmd) (m : String),
    (executeCommandInner e s c).2 = Except.error m →
    ((sessionLossMsg m = false →
        executeCommand e s c =
          writeResult (executeCommandInner e s c).1 (Response.error m) ∧
        (executeCommand e s c).resultFile = some (Response.error m) ∧
        (executeCommand e s c).launches = s.launches ∧
        (executeCommand e s c).execs = s.execs + 1) ∧
     (sessionLossMsg m = true →
        (executeCommand e s c).launches ≤ s.launches + 1 ∧
        (∀ s₂, ensureBrowserReady e (executeCommandInner e s c).1 = (s₂, Except.ok ()) →
          (executeCommand e s c).execs = s.execs + 2 ∧
          ((executeCommandInner e s₂ c).2 = Except.ok () →
            executeCommand e s c = (executeCommandInner e s₂ c).1 ∧
            ∃ r, (executeCommand e s c).resultFile = some r ∧ r.isSuccess = true)))) := by
  intro e s c m h
  rcases hp : executeCommandInner e s c with ⟨s₁, r₁⟩
  rw [hp] at h
  dsimp only at h
  subst h
  have hex1 : s₁.execs = s.execs + 1 := by
    have t := executeCommandInner_execs e s c
    rw [hp] at t; exact t
  have hla1 : s₁.launches = s.launches := by
    have t := executeCommandInner_launches e s c
    rw [hp] at t; exact t
  constructor
  · intro hm
    unfold executeCommand
    rw [hp]
    dsimp only
    simp only [hm, Bool.false_eq_true, if_false]
    simp [writeResult, hla1, hex1]
  · intro hm
    unfold executeCommand
    rw [hp]
    dsimp only
    simp only [hm, if_true]
    constructor
    · rcases h2 : ensureBrowserReady e s₁ with ⟨s₂, r₂⟩
      have hle : s₂.launches ≤ s₁.launches + 1 := by
        have t := ensureBrowserReady_launches_le e s₁
        rw [h2] at t; exact t
      cases r₂ with
      | error m₂ =>
        dsimp only [writeResult]
        omega
      | ok u =>
        dsimp only
        rcases h3 : executeCommandInner e s₂ c with ⟨s₃, r₃⟩
        have l3 : s₃.launches = s₂.launches := by
          have t := executeCommandInner_launches e s₂ c
          rw [h3] at t; exact t
        cases r₃ <;> dsimp only [writeResult] <;> omega
    · intro s₂ h2
      rw [h2]
      dsimp only
      have hexe : s₂.execs = s₁.execs := by
        have t := ensureBrowserReady_execs e s₁
        rw [h2] at t; exact t
      rcases h3 : executeCommandInner e s₂ c with ⟨s₃, r₃⟩
      have e3 : s₃.execs = s₂.execs + 1 := by
        have t := executeCommandInner_execs e s₂ c
        rw [h3] at t; exact t
      constructor
      · cases r₃ <;> dsimp only [writeResult] <;> omega
      · intro hok
        have hok' : r₃ = Except.ok () := hok
        subst hok'
        have hc : ∀ a, c ≠ Cmd.unknown a := by
          intro a hca
          subst hca
          have t := executeCommandInner_unknown_ok e s a
          rw [hp] at t
          exact absurd t (by simp)
        have hsucc := executeCommandInner_ok_success e s₂ c hc (by rw [h3])
        rw [h3] at hsucc
        exact ⟨rfl, hsucc⟩

/-- C1 witness: a status command on a dead session throws the closed
    message, triggers one restart and one retry, and the retry's success
    response stands. -/
theorem thm_C1_witness :
    (executeCommand eGood deadState Cmd.status).execs = deadState.execs + 2 ∧
    ∃ r, (executeCommand eGood deadState Cmd.status).resultFile = some r ∧
      r.isSuccess = true := by
  have h := (thm_C1 eGood deadState Cmd.status closedMsg rfl).2 (by decide)
  have h2 := h.2 ((ensureBrowserReady eGood
      (executeCommandInner eGood deadState Cmd.status).1).1) (by rfl)
  exact ⟨h2.1, (h2.2 (by rfl)).2⟩

/-- C2 counterexample: with an engine whose launch fails and a dead
    session, a dispatched command does not clean up the channel artifacts
    (the ready marker stays), contradicting that fresh-startup failure is
    fatal in every context including a lazy restart triggered by a
    dispatched command. -/
theorem thm_C2_cex :
    ¬ (∀ (e : Engine) (s : DaemonState) (c : Cmd),
        e.launchResult ≠ none →
        needsRestart s = true →
        (executeCommand e s c).readyFile = false) :=
  fun h => absurd (h eBad deadState Cmd.status (by decide) rfl) (by decide)

/-- C2 amended: a fresh-startup failure is fatal (cleanup plus exit code 1)
    only at daemon boot; when it happens during a lazy restart triggered by
    a dispatched command, the dispatcher catches it and writes an error
    response carrying the launch error message, leaving the ready marker
    as it was and the daemon running. -/
theorem thm_C2_amended : ∀ (e : Engine) (m : String), e.launchResult = some m →
    (∃ s', daemonBoot e = BootResult.exited s' 1 ∧ s'.readyFile = false ∧
      s'.commandFile = none ∧ s'.resultFile = none) ∧
    (∀ (s : DaemonState) (c : Cmd) (m' : String),
      (executeCommandInner e s c).2 = Except.error m' →
      sessionLossMsg m' = true →
      needsRestart (executeCommandInner e s c).1 = true →
      (executeCommand e s c).resultFile = some (Response.error m) ∧
      (executeCommand e s c).readyFile = s.readyFile) := by
  intro e m hl
  constructor
  · exact ⟨cleanup (cleanup initialState),
      by simp [daemonBoot, startDaemon, startBrowser, hl], rfl, rfl, rfl⟩
  · intro s c m' h1 hm hnr
    rcases hp : executeCommandInner e s c with ⟨s₁, r₁⟩
    rw [hp] at h1 hnr
    dsimp only at h1 hnr
    subst h1
    unfold executeCommand
    rw [hp]
    dsimp only
    simp only [hm, if_true]
    rcases h2 : ensureBrowserReady e s₁ with ⟨s₂, r₂⟩
    have hr2 : r₂ = Except.error m := by
      have t : (ensureBrowserReady e s₁).2 = Except.error m := by
        simp only [ensureBrowserReady, startBrowser, hnr, hl]
        (repeat' split) <;> simp_all
      rw [h2] at t
      exact t
    subst hr2
    dsimp only
    refine ⟨rfl, ?_⟩
    have f2 : s₂.readyFile = s₁.readyFile := by
      have t := ensureBrowserReady_readyFile e s₁
      rw [h2] at t; exact t
    have f1 : s₁.readyFile = s.readyFile := by
      have t := executeCommandInner_readyFile e s c
      rw [hp] at t; exact t
    exact f2.trans f1

/-- C2 witness: the failing-launch engine on a dead session with a status
    command yields an error response with the launch message and leaves
    the ready marker untouched. -/
theorem thm_C2_amended_witness :
    (executeCommand eBad deadState Cmd.status).resultFile =
      some (Response.error "Failed to launch browser") ∧
    (executeCommand eBad deadState Cmd.status).readyFile = deadState.readyFile :=
  (thm_C2_amended eBad "Failed to launch browser" rfl).2 deadState Cmd.status
    closedMsg rfl (by decide) rfl

/-- C3 counterexample: a state whose restarting mark is set still performs
    a fresh launch when the health check runs, so the mark does not
    suppress re-entrant restarts. -/
theorem thm_C3_cex :
    ¬ (∀ (e : Engine) (s : DaemonState), s.isRestarting = true →
        ((ensureBrowserReady e s).1).launches = s.launches) :=
  fun h => absurd (h eGood cxState rfl) (by decide)

/-- C3 amended: the restarting mark is set during a restart and cleared at
    its end, but it is never consulted: the number of launches the health
    check performs is independent of the mark, so a caller entering the
    check while a restart is marked in flight begins a second teardown and
    fresh startup whenever the usability probe fails. -/
theorem thm_C3_amended : ∀ (e : Engine) (s : DaemonState) (b₁ b₂ : Bool),
    ((ensureBrowserReady e { s with isRestarting := b₁ }).1).launches =
      ((ensureBrowserReady e { s with isRestarting := b₂ }).1).launches ∧
    (needsRestart s = true → e.launchResult = none →
      ((ensureBrowserReady e s).1).launches = s.launches + 1 ∧
      ((ensureBrowserReady e s).1).isRestarting = false) := by
  intro e s b₁ b₂
  constructor
  · simp only [ensureBrowserReady, startBrowser, needsRestart]
    (repeat' split) <;> simp_all
  · intro hr hl
    simp only [ensureBrowserReady, startBrowser, hr, hl]
    (repeat' split) <;> simp_all

/-- C3 witness: a dead session restarts (one launch) and the mark is
    cleared afterwards. -/
theorem thm_C3_amended_witness :
    ((ensureBrowserReady eGood deadState).1).launches = deadState.launches + 1 ∧
    ((ensureBrowserReady eGood deadState).1).isRestarting = false :=
  (thm_C3_amended eGood deadState true false).2 rfl rfl

/-- C4 counterexample: an error response is printed but the client still
    exits 0, contradicting that the client exits 1 whenever the collected
    response reports an error. -/
theorem thm_C4_cex :
    ¬ (∀ (env : ClientEnv) (args : List String) (r : Response),
        env.collect = CollectOutcome.got r → r.isSuccess = false →
        clientMain env args = 1) :=
  fun h => absurd
    (h { readyExists := true, collect := CollectOutcome.got (Response.error "boom") }
      ["navigate", "http://example.test/"] (Response.error "boom") rfl rfl)
    (by decide)

/-- C4 amended: the client exits 1 when the ready marker is absent, when
    the response wait times out, or on a usage error; when a response is
    collected before the timeout and the arguments pass the per-action
    checks, the client exits 0 even when the response reports an error
    (the error only affects what is printed); no other exit codes occur. -/
theorem thm_C4_amended : ∀ (env : ClientEnv) (args : List String),
    (env.readyExists = false → clientMain env args = 1) ∧
    (env.collect = CollectOutcome.timeout → clientMain env args = 1) ∧
    (∀ r, env.collect = CollectOutcome.got r → env.readyExists = true →
      clientArgsAccepted args = true → clientMain env args = 0) ∧
    (clientMain env args = 0 ∨ clientMain env args = 1) := by
  intro env args
  refine ⟨?_, ?_, ?_, ?_⟩
  · intro h
    simp [clientMain, h]
  · intro h
    simp only [clientMain, afterCollect, h]
    (repeat' split) <;> rfl
  · intro r hc hready hacc
    revert hacc
    simp only [clientMain, clientArgsAccepted, hready, if_true]
    (repeat' split) <;> intro hacc <;> simp_all [afterCollect, hc]
  · simp only [clientMain, afterCollect]
    (repeat' split) <;> simp

/-- C4 witness: a collected error response on a well-formed console
    invocation exits 0. -/
theorem thm_C4_amended_witness :
    clientMain { readyExists := true, collect := CollectOutcome.got (Response.error "boom") }
      ["console"] = 0 :=
  (thm_C4_amended
      { readyExists := true, collect := CollectOutcome.got (Response.error "boom") }
      ["console"]).2.2.1 (Response.error "boom") rfl rfl rfl

/-- C5: lastURL starts as about:blank, every daemon step either leaves it
    unchanged or is a navigate command that succeeded (wrote its success
    response) and set lastURL to its target; in particular, a navigate on
    a live session whose page load throws a non-session-loss message
    writes that message as an error response and leaves lastURL
    unchanged. -/
theorem thm_C5 :
    initialState.lastURL = "about:blank" ∧
    (∀ (e : Engine) (s : DaemonState) (ev : Event),
      (stepEvent e s ev).lastURL = s.lastURL ∨
      ∃ url, ev = Event.cmd (Cmd.navigate url) ∧ (stepEvent e s ev).lastURL = url ∧
        (stepEvent e s ev).resultFile = some (Response.navigateOk url (e.titleOf url))) ∧
    (∀ (e : Engine) (s : DaemonState) (url m : String),
      (s.browserConnected && s.pageResponsive) = true →
      e.gotoResult url = some m →
      sessionLossMsg m = false →
      (executeCommand e s (Cmd.navigate url)).resultFile = some (Response.error m) ∧
      (executeCommand e s (Cmd.navigate url)).lastURL = s.lastURL) := by
  refine ⟨rfl, ?_, ?_⟩
  · intro e s ev
    cases ev with
    | cmd c =>
      rcases executeCommand_lastURL_cases e s c with h | ⟨url, hc, hu, hr⟩
      · exact Or.inl h
      · exact Or.inr ⟨url, by rw [hc], hu, hr⟩
    | sessionLoss => exact Or.inl rfl
    | consoleEvent l => exact Or.inl rfl
  · intro e s url m hl hg hm
    have hinner : executeCommandInner e s (Cmd.navigate url) =
        ({ s with execs := s.execs + 1 }, Except.error m) := by
      simp [executeCommandInner, hl, hg]
    unfold executeCommand
    rw [hinner]
    simp [hm, writeResult]

/-- C5 witness: a navigate to an unreachable address on a live session
    writes the resolution error and leaves lastURL at its prior value. -/
theorem thm_C5_witness :
    (executeCommand eNavFail liveState (Cmd.navigate "http://x/")).resultFile
      = some (Response.error "net::ERR_NAME_NOT_RESOLVED") ∧
    (executeCommand eNavFail liveState (Cmd.navigate "http://x/")).lastURL
      = liveState.lastURL :=
  thm_C5.2.2 eNavFail liveState "http://x/" "net::ERR_NAME_NOT_RESOLVED" rfl rfl
    (by decide)

/-- C6: a pending request slot is always freed by the tick that reads it,
    before dispatch; a malformed payload still frees the slot and writes
    exactly one error response carrying the parse message, and the
    following tick does nothing more with it. -/
theorem thm_C6 : ∀ (e : Engine) (s : DaemonState) (raw : RawRequest),
    s.commandFile = some raw →
    (pollTick e s).commandFile = none ∧
    (∀ m, raw = RawRequest.malformed m →
      pollTick e s = writeResult { s with commandFile := none } (Response.error m)) ∧
    pollTick e (pollTick e s) = pollTick e s := by
  intro e s raw h
  have hfree : (pollTick e s).commandFile = none := by
    unfold pollTick
    rw [h]
    cases raw with
    | wellFormed c =>
      dsimp only
      exact executeCommand_commandFile e { s with commandFile := none } c
    | malformed m => rfl
  refine ⟨hfree, ?_, pollTick_none e _ hfree⟩
  intro m hm
  subst hm
  unfold pollTick
  rw [h]

/-- C6 witness: a malformed request is consumed, answered with one error
    response, and not dispatched again on the next tick. -/
theorem thm_C6_witness :
    (pollTick eGood pendingMalformed).commandFile = none ∧
    pollTick eGood pendingMalformed =
      writeResult { pendingMalformed with commandFile := none }
        (Response.error "Unexpected token x in JSON") ∧
    pollTick eGood (pollTick eGood pendingMalformed) = pollTick eGood pendingMalformed := by
  have h := thm_C6 eGood pendingMalformed
    (RawRequest.malformed "Unexpected token x in JSON") rfl
  exact ⟨h.1, h.2.1 _ rfl, h.2.2⟩

/-- C7: when a restart is needed, the launch succeeds and lastURL is set
    and not about:blank, the restart completes successfully with exactly
    one launch, a usable session and the mark cleared, lastURL untouched;
    a successful restoration leaves the page on lastURL, while a failed
    restoration is non-fatal and leaves the fresh session on about:blank. -/
theorem thm_C7 : ∀ (e : Engine) (s : DaemonState),
    needsRestart s = true → e.launchResult = none →
    s.lastURL ≠ "" → s.lastURL ≠ "about:blank" →
    (ensureBrowserReady e s).2 = Except.ok () ∧
    ((ensureBrowserReady e s).1).launches = s.launches + 1 ∧
    ((ensureBrowserReady e s).1).browserConnected = true ∧
    ((ensureBrowserReady e s).1).pageResponsive = true ∧
    ((ensureBrowserReady e s).1).isRestarting = false ∧
    ((ensureBrowserReady e s).1).lastURL = s.lastURL ∧
    (e.gotoResult s.lastURL = none → ((ensureBrowserReady e s).1).pageURL = s.lastURL) ∧
    (∀ m, e.gotoResult s.lastURL = some m →
      ((ensureBrowserReady e s).1).pageURL = "about:blank") := by
  intro e s hr hl hne hnb
  simp only [ensureBrowserReady, startBrowser, hr, hl]
  (repeat' split) <;> simp_all

/-- C7 witness: a restart whose restoration navigation times out still
    returns successfully, with the fresh session left on about:blank. -/
theorem thm_C7_witness :
    (ensureBrowserReady eRestoreFail deadNav).2 = Except.ok () ∧
    ((ensureBrowserReady eRestoreFail deadNav).1).pageURL = "about:blank" := by
  have h := thm_C7 eRestoreFail deadNav rfl rfl (by decide) (by decide)
  exact ⟨h.1, h.2.2.2.2.2.2.2 "Timeout 30000ms exceeded" rfl⟩

/-- C8: neither a fresh startup nor the whole health-monitor restart
    changes the console log buffer. -/
theorem thm_C8 : ∀ (e : Engine) (s : DaemonState),
    ((startBrowser e s).1).consoleLogs = s.consoleLogs ∧
    ((ensureBrowserReady e s).1).consoleLogs = s.consoleLogs := by
  intro e s
  constructor
  · cases hl : e.launchResult <;> simp [startBrowser, hl]
  · exact ensureBrowserReady_consoleLogs e s

/-- C9: a console-clear command followed immediately by a console command
    yields a success response whose log sequence is empty, whatever the
    buffer held before. -/
theorem thm_C9 : ∀ (e : Engine) (s : DaemonState),
    (executeCommand e (executeCommand e s Cmd.consoleClear) Cmd.console).resultFile
      = some (Response.consoleOk []) ∧
    (Response.consoleOk []).isSuccess = true := by
  intro e s
  exact ⟨rfl, rfl⟩

/-- C10: sending a request first deletes any leftover response slot and
    then writes the command, so the response subsequently collected is the
    first one written after the send, never a stale leftover. -/
theorem thm_C10 : ∀ (c : Cmd) (ch : Chan) (writes : List Response),
    (sendRequestPhase c ch).resultFile = none ∧
    (sendRequestPhase c ch).commandFile = some c ∧
    collectResponse (sendRequestPhase c ch) writes = writes.head? := by
  intro c ch writes
  exact ⟨rfl, rfl, rfl⟩
